import Mathlib

/-!
Shallow embedding of the shopcarts REST service
(`service/models/item.py`, `service/models/shopcart.py`, `service/routes.py`,
`service/common/error_handlers.py`) and proofs about its specification.

JSON values are modelled by an inductive `JVal`; Python `dict` payloads are
`JVal.jobj` over association lists, Python `list` payloads are `JVal.jarr`.
Machine timestamps are modelled by a `Nat` logical clock carried in the
database state; `datetime.isoformat` is modelled by an injective rendering
to `String` (its exact text is never inspected by the service).
-/

/-- A JSON value, as produced by Flask request parsing.  Numbers are modelled
by `Int`: the service never computes with them, it only stores and returns
them, so the numeric-tower detail of Python floats is irrelevant. -/
inductive JVal where
  | jnull
  | jbool (b : Bool)
  | jnum (n : Int)
  | jstr (s : String)
  | jarr (elems : List JVal)
  | jobj (fields : List (String × JVal))

namespace JVal

/-- Python `data.get(key)`-style lookup in an object's association list. -/
def lookupField (fields : List (String × JVal)) (key : String) : Option JVal :=
  List.lookup key fields

/-- Is this JSON value an object (a Python mapping)? -/
def isObj : JVal → Bool
  | .jobj _ => true
  | _ => false

/-- SQL equality of a stored column value against a string parameter, as in
`cls.customer_name == name` / `cls.name == name`. -/
def eqStr (v : JVal) (s : String) : Bool :=
  match v with
  | .jstr t => t == s
  | _ => false

/-- SQL equality of a stored column value against an integer parameter, as in
`cls.shopcart_id == search_id` and the `items` relationship join. -/
def eqNat (v : JVal) (n : Nat) : Bool :=
  match v with
  | .jnum m => m == (n : Int)
  | _ => false

end JVal

/-- Substring containment between strings, used to state what an error
message "contains". -/
def containsText (s pat : String) : Prop :=
  ∃ pre suf, s.data = pre ++ (pat.data ++ suf)

/-- Python's `TypeError` message when subscripting a non-mapping value with a
string key, as raised by `data["customer_name"]` on a wrong-shaped payload.
The exact wording is interpreter detail; only its presence matters. -/
def pySubscriptErr : JVal → String
  | .jnull => "'NoneType' object is not subscriptable"
  | .jbool _ => "'bool' object is not subscriptable"
  | .jnum _ => "'int' object is not subscriptable"
  | .jstr _ => "string indices must be integers"
  | .jarr _ => "list indices must be integers or slices, not str"
  | .jobj _ => "unreachable"

/-- Python's `TypeError` message when iterating a non-iterable value, as
raised by `for json_item in item_list` on a non-iterable `items` value. -/
def pyIterErr : JVal → String
  | .jnull => "'NoneType' object is not iterable"
  | .jbool _ => "'bool' object is not iterable"
  | .jnum _ => "'int' object is not iterable"
  | _ => "unreachable"

/-- Python iteration over a JSON value (`for json_item in item_list`):
arrays iterate over elements, strings over one-character strings, mappings
over their keys; `null`, booleans and numbers raise `TypeError`. -/
def pyIter : JVal → Option (List JVal)
  | .jarr l => some l
  | .jstr s => some (s.data.map fun c => .jstr (String.mk [c]))
  | .jobj fields => some (fields.map fun kv => .jstr kv.1)
  | _ => none

/-- Rendering of `datetime.isoformat()`, modelled as an injective rendering of the logical
clock; the service only ever passes the result through. -/
def isoformat (t : Nat) : String :=
  toString t

/-- In-memory `Item` entity as populated by `Item.deserialize`
(`item.py`): the payload-fed columns.  `id`, `created_at`, `last_updated`
are server-assigned at persist time and so live on the database row.
Note the model has no `is_urgent` column. -/
structure ItemEnt where
  shopcart_id : JVal
  name : JVal
  description : JVal
  price : JVal
  quantity : JVal

/-- A persisted `item` table row (`item.py` table schema). `shopcart_id`
is kept as the JSON value the service stored (the routes store
`jnum cartId`; `Item.deserialize` copies whatever the payload held). -/
structure ItemRec where
  id : Nat
  shopcart_id : JVal
  name : JVal
  description : JVal
  price : JVal
  quantity : JVal
  created_at : Nat
  last_updated : Nat

/-- A persisted `shopcart` table row (`shopcart.py` table schema).  Its
`items` relationship is derived from the item table (`backref`), see
`DB.itemsOf`. -/
structure ShopcartRec where
  id : Nat
  customer_name : JVal
  created_at : Nat
  last_updated : Nat

/-- In-memory `Shopcart` entity during deserialization: `id` is `none`
for a fresh (not yet persisted) entity. -/
structure ShopcartEnt where
  id : Option Nat
  customer_name : JVal
  items : List ItemEnt

/-- A fresh `Shopcart()` entity: nothing assigned yet. -/
def ShopcartEnt.fresh : ShopcartEnt :=
  { id := none, customer_name := .jnull, items := [] }

/-- Python `self.id` rendered as a JSON value (`None` becomes `null`). -/
def jidOf : Option Nat → JVal
  | none => .jnull
  | some n => .jnum n

namespace Item

/-- Model of `Item.serialize` (`item.py` lines 59-70): the exact dictionary the
model produces.  Its keys are `id, shopcart_id, name, description, price,
quantity, created_at, last_updated` — and nothing else. -/
def serialize (r : ItemRec) : List (String × JVal) :=
  [ ("id", .jnum r.id),
    ("shopcart_id", r.shopcart_id),
    ("name", r.name),
    ("description", r.description),
    ("price", r.price),
    ("quantity", r.quantity),
    ("created_at", .jstr (isoformat r.created_at)),
    ("last_updated", .jstr (isoformat r.last_updated)) ]

/-- Model of `Item.deserialize` (`item.py` lines 72-97): reads
`shopcart_id, name, description, price, quantity` in that order;
a missing key raises `DataValidationError "Invalid Item: missing <key>"`,
a non-mapping payload raises
`DataValidationError "Invalid Item: body of request contained bad or no data <TypeError>"`. -/
def deserialize (data : JVal) : Except String ItemEnt :=
  match data with
  | .jobj fields =>
    match JVal.lookupField fields "shopcart_id" with
    | none => .error ("Invalid Item: missing " ++ "shopcart_id")
    | some sid =>
      match JVal.lookupField fields "name" with
      | none => .error ("Invalid Item: missing " ++ "name")
      | some nm =>
        match JVal.lookupField fields "description" with
        | none => .error ("Invalid Item: missing " ++ "description")
        | some ds =>
          match JVal.lookupField fields "price" with
          | none => .error ("Invalid Item: missing " ++ "price")
          | some pr =>
            match JVal.lookupField fields "quantity" with
            | none => .error ("Invalid Item: missing " ++ "quantity")
            | some qt =>
              .ok { shopcart_id := sid, name := nm, description := ds,
                    price := pr, quantity := qt }
  | other =>
    .error ("Invalid Item: body of request contained bad or no data "
            ++ pySubscriptErr other)

end Item

namespace Shopcart

/-- The inner loop of `Shopcart.deserialize` (`shopcart.py` lines 84-89):
each nested JSON item is deserialized by `Item.deserialize` and its
`shopcart_id` is then overwritten with this cart's `id`; the first failure
propagates (as in Python, where the loop raises out of the whole call). -/
def deserializeItems (selfId : JVal) : List JVal → Except String (List ItemEnt)
  | [] => .ok []
  | j :: rest =>
    match Item.deserialize j with
    | .error e => .error e
    | .ok it =>
      match deserializeItems selfId rest with
      | .error e => .error e
      | .ok tl => .ok ({ it with shopcart_id := selfId } :: tl)

/-- Model of `Shopcart.deserialize` (`shopcart.py` lines 69-103): sets
`customer_name` from `data["customer_name"]` (missing key raises
`DataValidationError "Invalid Shopcart: missing customer_name"`;
a non-mapping payload raises the `TypeError`-derived
`"Invalid Shopcart: body of request contained bad or no data ..."`); then,
if `data.get("items")` is not `None`, rebuilds the item collection.
The in-memory effect on the entity is modelled here; the database effect
of the `clear_shopcart()` call on an already-populated persisted cart is
modelled separately at the route layer (`DB.clearItems`). -/
def deserialize (self : ShopcartEnt) (data : JVal) : Except String ShopcartEnt :=
  match data with
  | .jobj fields =>
    match JVal.lookupField fields "customer_name" with
    | none => .error ("Invalid Shopcart: missing " ++ "customer_name")
    | some v =>
      match JVal.lookupField fields "items" with
      | none => .ok { self with customer_name := v }
      | some .jnull => .ok { self with customer_name := v }
      | some itemsVal =>
        match pyIter itemsVal with
        | none =>
          .error ("Invalid Shopcart: body of request contained bad or no data "
                  ++ pyIterErr itemsVal)
        | some elems =>
          match deserializeItems (jidOf self.id) elems with
          | .error e => .error e
          | .ok its => .ok { self with customer_name := v, items := its }
  | other =>
    .error ("Invalid Shopcart: body of request contained bad or no data "
            ++ pySubscriptErr other)

end Shopcart

/-!
Database state and the persistence base.

`service/models/persistent_base.py` is not part of the provided sources
(only its importers are), so the generic persistence operations are
modelled from the specification, §4.1.
-/

/-- The relational database state.  `nextShopcartId` / `nextItemId` are the
primary-key sequences, `clock` is the logical time used for the
server-maintained `created_at` / `last_updated` columns. -/
structure DB where
  shopcarts : List ShopcartRec
  items : List ItemRec
  nextShopcartId : Nat
  nextItemId : Nat
  clock : Nat

namespace DB

/-- The `items` relationship of a cart (`db.relationship("Item",
backref="shopcart")` in `shopcart.py`): the item rows whose foreign key
equals the cart's primary key, in insertion order. -/
def itemsOf (db : DB) (cartId : Nat) : List ItemRec :=
  db.items.filter fun it => it.shopcart_id.eqNat cartId

end DB

namespace Shopcart

/-- Modelled from the spec: `find(id)` of the shared persistence base
(`persistent_base.py`, absent from the sources) "returns the entity with
the given primary key, or an empty/absent result if none exists". -/
def find (db : DB) (i : Nat) : Option ShopcartRec :=
  db.shopcarts.find? fun c => c.id == i

/-- Modelled from the spec: `all()` of the shared persistence base
"returns every row of the entity type". -/
def all (db : DB) : List ShopcartRec :=
  db.shopcarts

/-- Model of `Shopcart.find_by_customer_name` (`shopcart.py` lines 114-122):
filters on exact equality of the `customer_name` column. -/
def find_by_customer_name (db : DB) (customer_name : String) : List ShopcartRec :=
  db.shopcarts.filter fun c => c.customer_name.eqStr customer_name

/-- Model of `Shopcart.serialize` (`shopcart.py` lines 56-67): the dictionary
`{id, customer_name, items, created_at, last_updated}` where `items`
collects `Item.serialize` over the cart's relationship. -/
def serialize (db : DB) (c : ShopcartRec) : JVal :=
  .jobj
    [ ("id", .jnum c.id),
      ("customer_name", c.customer_name),
      ("items", .jarr ((db.itemsOf c.id).map fun it => .jobj (Item.serialize it))),
      ("created_at", .jstr (isoformat c.created_at)),
      ("last_updated", .jstr (isoformat c.last_updated)) ]

end Shopcart

namespace Item

/-- Modelled from the spec: `find(id)` of the shared persistence base for
items. -/
def find (db : DB) (i : Nat) : Option ItemRec :=
  db.items.find? fun it => it.id == i

/-- Model of `Item.find_by_name_within_shopcart` (`item.py` lines 99-110): items
where the `shopcart_id` column matches AND the `name` column equals
exactly. -/
def find_by_name_within_shopcart (db : DB) (search_id : Nat) (name : String) :
    List ItemRec :=
  db.items.filter fun it => it.shopcart_id.eqNat search_id && it.name.eqStr name

end Item

/-!
Route handlers (`service/routes.py`).

Each handler is a pure function of the database state and the request
data, returning the HTTP status, the JSON body, and the new database
state.  `abort(404, msg)` is rendered by the 404 error handler of
`error_handlers.py` (`{status, error, message}` with `str(error)` of the
werkzeug `NotFound`), and a `DataValidationError` by its 400 handler
(`{status_code, error, message}`).
-/

/-- An HTTP response: status code and JSON body. -/
structure HResp where
  status : Nat
  body : JVal

/-- The body built by the 404 handler in `error_handlers.py`. -/
def notFoundBody (msg : String) : JVal :=
  .jobj
    [ ("status", .jnum 404),
      ("error", .jstr "Not Found"),
      ("message", .jstr ("404 Not Found: " ++ msg)) ]

/-- The body built by the `DataValidationError` handler in
`error_handlers.py`. -/
def badRequestBody (msg : String) : JVal :=
  .jobj
    [ ("status_code", .jnum 400),
      ("error", .jstr "Bad Request"),
      ("message", .jstr msg) ]

/-- The 404 message used by every shopcart route. -/
def shopcartNotFoundMsg (shopcart_id : Nat) : String :=
  "Shopcart with id '" ++ toString shopcart_id ++ "' was not found."

/-- The 404 message used by every item route. -/
def itemNotFoundMsg (item_id : Nat) : String :=
  "Item with id '" ++ toString item_id ++ "' was not found."

/-- Flask truthiness of an optional string query argument
(`if args["customer-name"]:` / `if args["name"]:`): `None` and the empty
string are falsy. -/
def argTruthy : Option String → Bool
  | none => false
  | some s => !(s == "")

namespace ShopcartCollection

/-- Model of `ShopcartCollection.get` (`routes.py` lines 160-176): list all carts,
optionally filtered by the `customer-name` query argument when that
argument is truthy. -/
def get (db : DB) (customerName : Option String) : HResp :=
  let shopcarts :=
    match customerName with
    | some n => if n == "" then Shopcart.all db else Shopcart.find_by_customer_name db n
    | none => Shopcart.all db
  { status := 200, body := .jarr (shopcarts.map (Shopcart.serialize db)) }

end ShopcartCollection

/-- Modelled from the spec: `create()` of the shared persistence base
"inserts a new row", with the primary key drawn from the database sequence
and the server-set timestamp columns (`default=db.func.now()`).  Items
held in the in-memory relationship collection of the entity are inserted
with their foreign key set to the new cart's id (the ORM
relationship/`backref` flush behaviour, and the spec's invariant
`items[i].shopcart_id == id`). -/
def insertItemEnts (cid : Nat) (startId clock : Nat) :
    List ItemEnt → List ItemRec
  | [] => []
  | e :: rest =>
    { id := startId, shopcart_id := .jnum cid, name := e.name,
      description := e.description, price := e.price, quantity := e.quantity,
      created_at := clock, last_updated := clock }
      :: insertItemEnts cid (startId + 1) clock rest

/-- Modelled from the spec: persisting a freshly deserialized Shopcart
entity (`shopcart.create()`), returning the created row and the new
database state. -/
def createShopcart (db : DB) (ent : ShopcartEnt) : ShopcartRec × DB :=
  let cid := db.nextShopcartId
  let cart : ShopcartRec :=
    { id := cid, customer_name := ent.customer_name,
      created_at := db.clock, last_updated := db.clock }
  let newItems := insertItemEnts cid db.nextItemId db.clock ent.items
  ⟨cart,
   { shopcarts := db.shopcarts ++ [cart],
     items := db.items ++ newItems,
     nextShopcartId := cid + 1,
     nextItemId := db.nextItemId + newItems.length,
     clock := db.clock + 1 }⟩

namespace ShopcartCollection

/-- Model of `ShopcartCollection.post` (`routes.py` lines 182-196): deserialize
the payload into a fresh `Shopcart()`, persist it, and answer 201 with
the serialized cart and a `Location` header; a `DataValidationError`
from deserialization is answered 400 by the error handler. -/
def post (db : DB) (payload : JVal) : HResp × Option String × DB :=
  match Shopcart.deserialize ShopcartEnt.fresh payload with
  | .error msg => ⟨{ status := 400, body := badRequestBody msg }, none, db⟩
  | .ok ent =>
    let (cart, db') := createShopcart db ent
    ⟨{ status := 201, body := Shopcart.serialize db' cart },
     some ("/api/shopcarts/" ++ toString cart.id), db'⟩

end ShopcartCollection

namespace ShopcartResource

/-- Model of `ShopcartResource.get` (`routes.py` lines 217-230): 404 when no cart
has the given id, otherwise 200 with the serialized cart. -/
def get (db : DB) (shopcart_id : Nat) : HResp :=
  match Shopcart.find db shopcart_id with
  | none => { status := 404, body := notFoundBody (shopcartNotFoundMsg shopcart_id) }
  | some cart => { status := 200, body := Shopcart.serialize db cart }

/-- Model of `ShopcartResource.delete` (`routes.py` lines 265-277): delete the cart
when it exists (the `ondelete="CASCADE"` foreign key of `item.py` removes
its items), and answer 204 with an empty body in every case. -/
def delete (db : DB) (shopcart_id : Nat) : HResp × DB :=
  match Shopcart.find db shopcart_id with
  | none => ⟨{ status := 204, body := .jstr "" }, db⟩
  | some _ =>
    ⟨{ status := 204, body := .jstr "" },
     { db with
        shopcarts := db.shopcarts.filter fun c => !(c.id == shopcart_id),
        items := db.items.filter fun it => !(it.shopcart_id.eqNat shopcart_id) }⟩

end ShopcartResource

/-- Model of `Shopcart.clear_shopcart` (`shopcart.py` lines 105-112) acting on the
database: every contained item row is deleted, then `update()` is called
on the cart itself (modelled from the spec: `update()` refreshes
`last_updated` and commits). -/
def clearShopcart (db : DB) (cartId : Nat) : DB :=
  { db with
     items := db.items.filter fun it => !(it.shopcart_id.eqNat cartId),
     shopcarts := db.shopcarts.map fun c =>
       if c.id == cartId then { c with last_updated := db.clock } else c,
     clock := db.clock + 1 }

namespace ShopcartEmptyResource

/-- Model of `ShopcartEmptyResource.put` (`routes.py` lines 295-311): 404 when the
cart does not exist, otherwise `clear_shopcart()` then 200 with the
serialized (now empty) cart. -/
def put (db : DB) (shopcart_id : Nat) : HResp × DB :=
  match Shopcart.find db shopcart_id with
  | none => ⟨{ status := 404, body := notFoundBody (shopcartNotFoundMsg shopcart_id) }, db⟩
  | some cart =>
    let db' := clearShopcart db shopcart_id
    ⟨{ status := 200,
       body := Shopcart.serialize db' { cart with last_updated := db.clock } }, db'⟩

end ShopcartEmptyResource

namespace ItemCollection

/-- Model of `ItemCollection.get` (`routes.py` lines 330-351): 404 when the cart
does not exist; otherwise the cart's items, filtered through
`Item.find_by_name_within_shopcart` when the `name` query argument is
truthy. -/
def get (db : DB) (shopcart_id : Nat) (name : Option String) : HResp :=
  match Shopcart.find db shopcart_id with
  | none => { status := 404, body := notFoundBody (shopcartNotFoundMsg shopcart_id) }
  | some _ =>
    let items_found :=
      match name with
      | some n =>
        if n == "" then db.itemsOf shopcart_id
        else Item.find_by_name_within_shopcart db shopcart_id n
      | none => db.itemsOf shopcart_id
    { status := 200,
      body := .jarr (items_found.map fun it => .jobj (Item.serialize it)) }

/-- Model of `ItemCollection.post` (`routes.py` lines 357-388): 404 when the cart
does not exist; deserialize the payload into a fresh `Item()` (a failure is
answered 400), force `shopcart_id` from the path, append the item to the
cart and `update()` the cart — persisting the new row with server-assigned
id and timestamps (modelled from the spec: persistence base `create`/
relationship flush) and refreshing the cart's `last_updated`. -/
def post (db : DB) (shopcart_id : Nat) (payload : JVal) :
    HResp × Option String × DB :=
  match Shopcart.find db shopcart_id with
  | none =>
    ⟨{ status := 404, body := notFoundBody (shopcartNotFoundMsg shopcart_id) },
     none, db⟩
  | some _ =>
    match Item.deserialize payload with
    | .error msg => ⟨{ status := 400, body := badRequestBody msg }, none, db⟩
    | .ok ent =>
      let iid := db.nextItemId
      let row : ItemRec :=
        { id := iid, shopcart_id := .jnum shopcart_id, name := ent.name,
          description := ent.description, price := ent.price,
          quantity := ent.quantity,
          created_at := db.clock, last_updated := db.clock }
      let db' : DB :=
        { db with
           items := db.items ++ [row],
           shopcarts := db.shopcarts.map fun c =>
             if c.id == shopcart_id then { c with last_updated := db.clock } else c,
           nextItemId := iid + 1,
           clock := db.clock + 1 }
      ⟨{ status := 201, body := .jobj (Item.serialize row) },
       some ("/api/shopcarts/" ++ toString shopcart_id ++ "/items/" ++ toString iid),
       db'⟩

end ItemCollection

namespace ItemResource

/-- Model of `ItemResource.get` (`routes.py` lines 410-427): the lookup is
`Item.find(item_id)` alone — the `shopcart_id` path segment is never
compared against the item's owning cart. -/
def get (db : DB) (shopcart_id : Nat) (item_id : Nat) : HResp :=
  match Item.find db item_id with
  | none => { status := 404, body := notFoundBody (itemNotFoundMsg item_id) }
  | some item => { status := 200, body := .jobj (Item.serialize item) }

/-- Model of `ItemResource.put` (`routes.py` lines 437-460): find the item by
`item_id` alone, deserialize the payload over it (this replaces
`shopcart_id, name, description, price, quantity` from the body), pin
`id` from the path, and `update()` (modelled from the spec: refreshes
`last_updated`). -/
def put (db : DB) (shopcart_id : Nat) (item_id : Nat) (payload : JVal) :
    HResp × DB :=
  match Item.find db item_id with
  | none => ⟨{ status := 404, body := notFoundBody (itemNotFoundMsg item_id) }, db⟩
  | some item =>
    match Item.deserialize payload with
    | .error msg => ⟨{ status := 400, body := badRequestBody msg }, db⟩
    | .ok ent =>
      let row : ItemRec :=
        { id := item_id, shopcart_id := ent.shopcart_id, name := ent.name,
          description := ent.description, price := ent.price,
          quantity := ent.quantity,
          created_at := item.created_at, last_updated := db.clock }
      let db' : DB :=
        { db with
           items := db.items.map fun it => if it.id == item_id then row else it,
           clock := db.clock + 1 }
      ⟨{ status := 200, body := .jobj (Item.serialize row) }, db'⟩

/-- Model of `ItemResource.delete` (`routes.py` lines 467-483): find the item by
`item_id` alone; delete it when present; 204 with an empty body in every
case. -/
def delete (db : DB) (shopcart_id : Nat) (item_id : Nat) : HResp × DB :=
  match Item.find db item_id with
  | none => ⟨{ status := 204, body := .jstr "" }, db⟩
  | some _ =>
    ⟨{ status := 204, body := .jstr "" },
     { db with items := db.items.filter fun it => !(it.id == item_id) }⟩

end ItemResource

/-- Result of an urgent-marking request.  `assignedUrgent` records the
value the handler wrote to the item's `is_urgent` attribute — a plain
Python instance attribute, since the `Item` table of `item.py` declares no
`is_urgent` column; it is therefore request-transient and neither
persisted nor serialized. -/
structure UrgentOut where
  status : Nat
  body : JVal
  assignedUrgent : Option Bool
  db : DB

namespace ItemUrgentMarkingResource

/-- Model of `ItemUrgentMarkingResource.put` (`routes.py` lines 503-531): find the
item by `item_id` alone (404 when absent), set `item.is_urgent = True`,
`update()`, and answer 200 with `item.serialize()`. -/
def put (db : DB) (shopcart_id : Nat) (item_id : Nat) : UrgentOut :=
  match Item.find db item_id with
  | none =>
    { status := 404, body := notFoundBody (itemNotFoundMsg item_id),
      assignedUrgent := none, db := db }
  | some item =>
    let row := { item with last_updated := db.clock }
    { status := 200, body := .jobj (Item.serialize row),
      assignedUrgent := some true,
      db := { db with
               items := db.items.map fun it => if it.id == item_id then row else it,
               clock := db.clock + 1 } }

/-- Model of `ItemUrgentMarkingResource.delete` (`routes.py` lines 538-566): same
lookup, sets `item.is_urgent = False`, answers 200 with
`item.serialize()`. -/
def delete (db : DB) (shopcart_id : Nat) (item_id : Nat) : UrgentOut :=
  match Item.find db item_id with
  | none =>
    { status := 404, body := notFoundBody (itemNotFoundMsg item_id),
      assignedUrgent := none, db := db }
  | some item =>
    let row := { item with last_updated := db.clock }
    { status := 200, body := .jobj (Item.serialize row),
      assignedUrgent := some false,
      db := { db with
               items := db.items.map fun it => if it.id == item_id then row else it,
               clock := db.clock + 1 } }

end ItemUrgentMarkingResource

/-!
Auxiliary observers and concrete sample states.
-/

/-- Read a field of a JSON object body (`response.get_json()["k"]`). -/
def fieldOf (b : JVal) (k : String) : Option JVal :=
  match b with
  | .jobj fs => JVal.lookupField fs k
  | _ => none

/-- The payload-carried content of an item: `(name, description, price,
quantity)` — what "the item contents" means once ids, foreign keys and
timestamps are factored out. -/
def itemContent (e : ItemEnt) : JVal × JVal × JVal × JVal :=
  (e.name, e.description, e.price, e.quantity)

/-- Sample persisted item: item 7 inside shopcart 1. -/
def item7 : ItemRec :=
  { id := 7, shopcart_id := .jnum 1, name := .jstr "shirt",
    description := .jstr "a shirt to wear", price := .jnum 5, quantity := .jnum 2,
    created_at := 0, last_updated := 0 }

/-- Sample persisted cart: cart 1 for customer Alice. -/
def cart1 : ShopcartRec :=
  { id := 1, customer_name := .jstr "Alice", created_at := 0, last_updated := 0 }

/-- Sample database: one cart (id 1, "Alice") holding one item (id 7,
"shirt"). -/
def sampleDb : DB :=
  { shopcarts := [cart1], items := [item7],
    nextShopcartId := 2, nextItemId := 8, clock := 3 }

/-- The empty database. -/
def emptyDb : DB :=
  { shopcarts := [], items := [], nextShopcartId := 1, nextItemId := 1, clock := 0 }

/-- A well-formed JSON item payload, as in the repository's fixtures. -/
def itemPayload : JVal :=
  .jobj
    [ ("shopcart_id", .jnull), ("name", .jstr "shirt"),
      ("description", .jstr "d"), ("price", .jnum 5), ("quantity", .jnum 2) ]

/-- The C8 payload: a body with `customer_name` and one nested item. -/
def c8payload : JVal :=
  .jobj [("customer_name", .jstr "Bob"), ("items", .jarr [itemPayload])]

/-- The item row the service creates from `c8payload` in the empty
database. -/
def c8row : ItemRec :=
  { id := 1, shopcart_id := .jnum 1, name := .jstr "shirt",
    description := .jstr "d", price := .jnum 5, quantity := .jnum 2,
    created_at := 0, last_updated := 0 }

/-!
Helper lemmas.
-/

theorem JVal.eqStr_iff (v : JVal) (s : String) :
    v.eqStr s = true ↔ v = .jstr s := by
  cases v <;> simp [JVal.eqStr]

theorem JVal.eqNat_iff (v : JVal) (n : Nat) :
    v.eqNat n = true ↔ v = .jnum n := by
  cases v <;> simp [JVal.eqNat]

theorem find?_filter_not {α} (p : α → Bool) (l : List α) :
    (l.filter fun a => !(p a)).find? p = none := by
  rw [List.find?_eq_none]
  intro x hx
  have hpx := (List.mem_filter.mp hx).2
  simp only [Bool.not_eq_true'] at hpx
  simp [hpx]

theorem filter_after_filter_not {α} (p : α → Bool) (l : List α) :
    (l.filter fun a => !(p a)).filter p = [] := by
  induction l with
  | nil => rfl
  | cons a t ih =>
    by_cases h : p a <;> simp [List.filter_cons, h, ih]

theorem find?_map_stamp (l : List ShopcartRec) (i t : Nat) (c : ShopcartRec)
    (h : l.find? (fun x => x.id == i) = some c) :
    (l.map fun x => if x.id == i then { x with last_updated := t } else x).find?
      (fun x => x.id == i) = some { c with last_updated := t } := by
  induction l with
  | nil => simp at h
  | cons a tl ih =>
    simp only [List.map_cons]
    by_cases ha : (a.id == i) = true
    · rw [List.find?_cons_of_pos (p := fun x : ShopcartRec => x.id == i) _ ha] at h
      have hae : a = c := by injection h
      subst hae
      rw [if_pos ha]
      exact List.find?_cons_of_pos (p := fun x : ShopcartRec => x.id == i) _ ha
    · rw [List.find?_cons_of_neg (p := fun x : ShopcartRec => x.id == i) _ ha] at h
      rw [if_neg ha]
      rw [List.find?_cons_of_neg (p := fun x : ShopcartRec => x.id == i) _ ha]
      exact ih h

theorem item_find?_map_set (l : List ItemRec) (iid : Nat) (row : ItemRec)
    (c : ItemRec) (h : l.find? (fun it => it.id == iid) = some c)
    (hrow : row.id = iid) :
    (l.map fun it => if it.id == iid then row else it).find?
      (fun it => it.id == iid) = some row := by
  have hrowb : (row.id == iid) = true := by simp [hrow]
  induction l with
  | nil => simp at h
  | cons a tl ih =>
    simp only [List.map_cons]
    by_cases ha : (a.id == iid) = true
    · rw [if_pos ha]
      exact List.find?_cons_of_pos (p := fun it : ItemRec => it.id == iid) _ hrowb
    · rw [List.find?_cons_of_neg (p := fun it : ItemRec => it.id == iid) _ ha] at h
      rw [if_neg ha]
      rw [List.find?_cons_of_neg (p := fun it : ItemRec => it.id == iid) _ ha]
      exact ih h

theorem insertItemEnts_filter_eqNat (cid s t : Nat) (l : List ItemEnt) :
    (insertItemEnts cid s t l).filter (fun it => it.shopcart_id.eqNat cid)
      = insertItemEnts cid s t l := by
  induction l generalizing s with
  | nil => rfl
  | cons e tl ih =>
    have hc : JVal.eqNat (.jnum (cid : Int)) cid = true := by simp [JVal.eqNat]
    simp [insertItemEnts, List.filter_cons, hc, ih]

theorem insertItemEnts_content (cid s t : Nat) (l : List ItemEnt) :
    (insertItemEnts cid s t l).map
        (fun r => (r.name, r.description, r.price, r.quantity))
      = l.map (fun e => (e.name, e.description, e.price, e.quantity)) := by
  induction l generalizing s with
  | nil => rfl
  | cons e tl ih => simp [insertItemEnts, ih]

theorem item_deserialize_serialize (r : ItemRec) :
    Item.deserialize (.jobj (Item.serialize r))
      = .ok { shopcart_id := r.shopcart_id, name := r.name,
              description := r.description, price := r.price,
              quantity := r.quantity } := rfl

theorem deserializeItems_of_serialized (selfId : JVal) (rows : List ItemRec) :
    Shopcart.deserializeItems selfId (rows.map fun it => .jobj (Item.serialize it))
      = .ok (rows.map fun it =>
          ({ shopcart_id := selfId, name := it.name, description := it.description,
             price := it.price, quantity := it.quantity } : ItemEnt)) := by
  induction rows with
  | nil => rfl
  | cons r tl ih =>
    simp [Shopcart.deserializeItems, item_deserialize_serialize, ih]

theorem lookup_append_single_ne (fields : List (String × JVal)) (k k' : String)
    (v : JVal) (h : (k == k') = false) :
    List.lookup k (fields ++ [(k', v)]) = List.lookup k fields := by
  induction fields with
  | nil => simp [List.lookup, h]
  | cons a tl ih =>
    by_cases ha : (k == a.1) = true
    · simp [List.lookup, ha]
    · simp only [List.cons_append, List.lookup]
      rw [Bool.not_eq_true] at ha
      rw [ha]
      exact ih

/-- Claim C1: `Item.serialize` never emits an `is_urgent` key (the `Item`
model declares no such column), `Item.deserialize` ignores any `is_urgent`
entry of the payload, and even the response of the urgent-marking route —
whose own test reads `data["is_urgent"]` — has no `is_urgent` key. -/
theorem c1_item_has_no_is_urgent_field :
    (∀ r : ItemRec, JVal.lookupField (Item.serialize r) "is_urgent" = none)
    ∧ (∀ (fields : List (String × JVal)) (v : JVal),
        Item.deserialize (.jobj (fields ++ [("is_urgent", v)]))
          = Item.deserialize (.jobj fields))
    ∧ (ItemUrgentMarkingResource.put sampleDb 1 7).status = 200
    ∧ fieldOf (ItemUrgentMarkingResource.put sampleDb 1 7).body "is_urgent" = none := by
  refine ⟨fun r => rfl, ?_, rfl, rfl⟩
  intro fields v
  simp only [Item.deserialize, JVal.lookupField,
    lookup_append_single_ne fields "shopcart_id" "is_urgent" v rfl,
    lookup_append_single_ne fields "name" "is_urgent" v rfl,
    lookup_append_single_ne fields "description" "is_urgent" v rfl,
    lookup_append_single_ne fields "price" "is_urgent" v rfl,
    lookup_append_single_ne fields "quantity" "is_urgent" v rfl]

/-- Claim C2 counterexample: item 7 exists and belongs to shopcart 1, yet
the urgent-marking requests addressed through shopcart 2 both answer 200,
not the 404 the claim requires. -/
theorem c2_counterexample :
    Item.find sampleDb 7 = some item7
    ∧ item7.shopcart_id = .jnum 1
    ∧ (ItemUrgentMarkingResource.put sampleDb 2 7).status = 200
    ∧ (ItemUrgentMarkingResource.delete sampleDb 2 7).status = 200
    ∧ (1 : Int) ≠ 2 ∧ (200 : Nat) ≠ 404 :=
  ⟨rfl, rfl, rfl, rfl, by decide, by decide⟩

/-- Claim C2 (amended): the urgent-marking routes resolve the item by
`item_id` alone.  When the item exists — whatever cart the path names —
PUT answers 200 with the serialized item after writing `true` to its
(transient) `is_urgent` attribute, and DELETE answers 200 after writing
`false`; when no item with `item_id` exists both answer 404. -/
theorem c2_urgent_routes_resolve_by_item_id :
    (∀ (db : DB) (sid iid : Nat) (r : ItemRec), Item.find db iid = some r →
       (ItemUrgentMarkingResource.put db sid iid).status = 200
       ∧ (ItemUrgentMarkingResource.put db sid iid).assignedUrgent = some true
       ∧ (ItemUrgentMarkingResource.put db sid iid).body
           = .jobj (Item.serialize { r with last_updated := db.clock })
       ∧ (ItemUrgentMarkingResource.delete db sid iid).status = 200
       ∧ (ItemUrgentMarkingResource.delete db sid iid).assignedUrgent = some false
       ∧ (ItemUrgentMarkingResource.delete db sid iid).body
           = .jobj (Item.serialize { r with last_updated := db.clock }))
    ∧ (∀ (db : DB) (sid iid : Nat), Item.find db iid = none →
       (ItemUrgentMarkingResource.put db sid iid).status = 404
       ∧ (ItemUrgentMarkingResource.delete db sid iid).status = 404) := by
  constructor
  · intro db sid iid r h
    simp [ItemUrgentMarkingResource.put, ItemUrgentMarkingResource.delete, h]
  · intro db sid iid h
    simp [ItemUrgentMarkingResource.put, ItemUrgentMarkingResource.delete, h]

/-- Witness for C2's amended theorem at the sample database. -/
theorem c2_witness :
    (ItemUrgentMarkingResource.put sampleDb 2 7).status = 200
    ∧ (ItemUrgentMarkingResource.put sampleDb 2 7).assignedUrgent = some true
    ∧ (ItemUrgentMarkingResource.delete sampleDb 2 7).assignedUrgent = some false
    ∧ (ItemUrgentMarkingResource.put sampleDb 2 0).status = 404 := by
  have h1 := (c2_urgent_routes_resolve_by_item_id.1 sampleDb 2 7 item7 rfl)
  have h2 := (c2_urgent_routes_resolve_by_item_id.2 sampleDb 2 0 rfl)
  exact ⟨h1.1, h1.2.1, h1.2.2.2.2.1, h2.1⟩

/-- Claim C3: `Shopcart.deserialize` answers every mapping payload lacking
`customer_name` with a `DataValidationError` whose message contains
"missing customer_name", answers every non-mapping payload with one whose
message contains "bad or no data", and on success copies
`data["customer_name"]` into the entity. -/
theorem c3_shopcart_deserialize_contract :
    (∀ (self : ShopcartEnt) (fields : List (String × JVal)),
       JVal.lookupField fields "customer_name" = none →
       ∃ m, Shopcart.deserialize self (.jobj fields) = .error m
            ∧ containsText m "missing customer_name")
    ∧ (∀ (self : ShopcartEnt) (data : JVal), data.isObj = false →
       ∃ m, Shopcart.deserialize self data = .error m
            ∧ containsText m "bad or no data")
    ∧ (∀ (self ent : ShopcartEnt) (data : JVal),
       Shopcart.deserialize self data = .ok ent →
       ∃ fields, data = .jobj fields
         ∧ JVal.lookupField fields "customer_name" = some ent.customer_name) := by
  refine ⟨?_, ?_, ?_⟩
  · intro self fields h
    refine ⟨"Invalid Shopcart: missing " ++ "customer_name", ?_, ?_⟩
    · simp [Shopcart.deserialize, h]
    · exact ⟨"Invalid Shopcart: ".data, [], by decide⟩
  · intro self data h
    cases data with
    | jobj fields => simp [JVal.isObj] at h
    | jnull =>
      exact ⟨_, rfl, "Invalid Shopcart: body of request contained ".data,
        " 'NoneType' object is not subscriptable".data, rfl⟩
    | jbool b =>
      exact ⟨_, rfl, "Invalid Shopcart: body of request contained ".data,
        " 'bool' object is not subscriptable".data, rfl⟩
    | jnum n =>
      exact ⟨_, rfl, "Invalid Shopcart: body of request contained ".data,
        " 'int' object is not subscriptable".data, rfl⟩
    | jstr str =>
      exact ⟨_, rfl, "Invalid Shopcart: body of request contained ".data,
        " string indices must be integers".data, rfl⟩
    | jarr l =>
      exact ⟨_, rfl, "Invalid Shopcart: body of request contained ".data,
        " list indices must be integers or slices, not str".data, rfl⟩
  · intro self ent data h
    cases data with
    | jnull => simp [Shopcart.deserialize] at h
    | jbool b => simp [Shopcart.deserialize] at h
    | jnum n => simp [Shopcart.deserialize] at h
    | jstr str => simp [Shopcart.deserialize] at h
    | jarr l => simp [Shopcart.deserialize] at h
    | jobj fields =>
      refine ⟨fields, rfl, ?_⟩
      simp only [Shopcart.deserialize] at h
      split at h
      · simp at h
      · rename_i v heq
        rw [heq]
        split at h
        · have he : { self with customer_name := v } = ent := by injection h
          rw [← he]
        · have he : { self with customer_name := v } = ent := by injection h
          rw [← he]
        · split at h
          · simp at h
          · split at h
            · simp at h
            · rename_i its hd
              have he : { self with customer_name := v, items := its } = ent := by
                injection h
              rw [← he]

/-- Witness for C3 at concrete payloads. -/
theorem c3_witness :
    (∃ m, Shopcart.deserialize ShopcartEnt.fresh (.jobj [("name", .jstr "x")]) = .error m
          ∧ containsText m "missing customer_name")
    ∧ (∃ m, Shopcart.deserialize ShopcartEnt.fresh (.jarr []) = .error m
          ∧ containsText m "bad or no data")
    ∧ (∃ fields, (.jobj [("customer_name", .jstr "Bob")] : JVal) = .jobj fields
        ∧ JVal.lookupField fields "customer_name"
          = some ({ id := none, customer_name := .jstr "Bob",
                    items := [] } : ShopcartEnt).customer_name) :=
  ⟨c3_shopcart_deserialize_contract.1 ShopcartEnt.fresh _ rfl,
   c3_shopcart_deserialize_contract.2.1 ShopcartEnt.fresh _ rfl,
   c3_shopcart_deserialize_contract.2.2 ShopcartEnt.fresh _ _ rfl⟩

/-- Claim C4: both DELETE endpoints answer 204 with an empty body whether or
not the target exists, the target row is gone afterwards, and repeating the
same delete answers 204 again. -/
theorem c4_delete_idempotent :
    ∀ (db : DB) (sid iid : Nat),
      (ShopcartResource.delete db sid).1.status = 204
      ∧ (ShopcartResource.delete db sid).1.body = .jstr ""
      ∧ Shopcart.find (ShopcartResource.delete db sid).2 sid = none
      ∧ (ShopcartResource.delete (ShopcartResource.delete db sid).2 sid).1.status = 204
      ∧ (ItemResource.delete db sid iid).1.status = 204
      ∧ (ItemResource.delete db sid iid).1.body = .jstr ""
      ∧ Item.find (ItemResource.delete db sid iid).2 iid = none
      ∧ (ItemResource.delete (ItemResource.delete db sid iid).2 sid iid).1.status = 204 := by
  have hs : ∀ (d : DB) (i : Nat), (ShopcartResource.delete d i).1.status = 204
      ∧ (ShopcartResource.delete d i).1.body = .jstr "" := by
    intro d i
    cases h : Shopcart.find d i <;> simp [ShopcartResource.delete, h]
  have hi : ∀ (d : DB) (j i : Nat), (ItemResource.delete d j i).1.status = 204
      ∧ (ItemResource.delete d j i).1.body = .jstr "" := by
    intro d j i
    cases h : Item.find d i <;> simp [ItemResource.delete, h]
  intro db sid iid
  have hfs : Shopcart.find (ShopcartResource.delete db sid).2 sid = none := by
    cases h : Shopcart.find db sid with
    | none => simp [ShopcartResource.delete, h]
    | some c =>
      simp only [ShopcartResource.delete, h]
      simp only [Shopcart.find]
      exact find?_filter_not _ _
  have hfi : Item.find (ItemResource.delete db sid iid).2 iid = none := by
    cases h : Item.find db iid with
    | none => simp [ItemResource.delete, h]
    | some r =>
      simp only [ItemResource.delete, h]
      simp only [Item.find]
      exact find?_filter_not _ _
  exact ⟨(hs db sid).1, (hs db sid).2, hfs, (hs _ sid).1,
         (hi db sid iid).1, (hi db sid iid).2, hfi, (hi _ sid iid).1⟩

/-- Claim C5: `PUT /shopcarts/{id}/empty` on an existing cart answers 200
with an empty `items` array, and repeating it on the now-empty cart again
answers 200 with zero items (`clear_shopcart` on an already-empty cart
succeeds). -/
theorem c5_empty_cart_idempotent :
    ∀ (db : DB) (i : Nat) (c : ShopcartRec), Shopcart.find db i = some c →
      (ShopcartEmptyResource.put db i).1.status = 200
      ∧ fieldOf (ShopcartEmptyResource.put db i).1.body "items" = some (.jarr [])
      ∧ (ShopcartEmptyResource.put (ShopcartEmptyResource.put db i).2 i).1.status = 200
      ∧ fieldOf (ShopcartEmptyResource.put (ShopcartEmptyResource.put db i).2 i).1.body
          "items" = some (.jarr []) := by
  intro db i c h
  have hc : c.id = i := by
    have := List.find?_some h
    simpa using this
  have hclear : ∀ (d : DB) (j : Nat), (clearShopcart d j).itemsOf j = [] := by
    intro d j
    simp only [clearShopcart, DB.itemsOf]
    exact filter_after_filter_not _ _
  have h2 : Shopcart.find (clearShopcart db i) i
      = some { c with last_updated := db.clock } := by
    simp only [clearShopcart, Shopcart.find]
    exact find?_map_stamp db.shopcarts i db.clock c h
  refine ⟨?_, ?_, ?_, ?_⟩
  · simp [ShopcartEmptyResource.put, h]
  · simp only [ShopcartEmptyResource.put, h]
    show some (JVal.jarr (((clearShopcart db i).itemsOf c.id).map
      fun it => JVal.jobj (Item.serialize it))) = some (JVal.jarr [])
    rw [hc, hclear]
    rfl
  · simp [ShopcartEmptyResource.put, h, h2]
  · simp only [ShopcartEmptyResource.put, h, h2]
    show some (JVal.jarr (((clearShopcart (clearShopcart db i) i).itemsOf c.id).map
      fun it => JVal.jobj (Item.serialize it))) = some (JVal.jarr [])
    rw [hc, hclear]
    rfl

/-- Witness for C5 at the sample database. -/
theorem c5_witness :
    (ShopcartEmptyResource.put sampleDb 1).1.status = 200
    ∧ fieldOf (ShopcartEmptyResource.put sampleDb 1).1.body "items" = some (.jarr [])
    ∧ (ShopcartEmptyResource.put (ShopcartEmptyResource.put sampleDb 1).2 1).1.status = 200
    ∧ fieldOf (ShopcartEmptyResource.put (ShopcartEmptyResource.put sampleDb 1).2 1).1.body
        "items" = some (.jarr []) :=
  c5_empty_cart_idempotent sampleDb 1 cart1 rfl

/-- Claim C6 counterexample: with the filter value `""` (an empty but
present `customer-name` argument) the route returns every cart — here the
"Alice" cart — although no cart's `customer_name` equals `""`. -/
theorem c6_counterexample :
    cart1 ∈ sampleDb.shopcarts
    ∧ cart1.customer_name = .jstr "Alice"
    ∧ Shopcart.find_by_customer_name sampleDb "" = []
    ∧ (ShopcartCollection.get sampleDb (some "")).body
        = .jarr [Shopcart.serialize sampleDb cart1]
    ∧ (ShopcartCollection.get sampleDb (some "")).body ≠ .jarr [] := by
  refine ⟨by simp [sampleDb], rfl, rfl, rfl, ?_⟩
  intro heq
  rw [show (ShopcartCollection.get sampleDb (some "")).body
      = .jarr [Shopcart.serialize sampleDb cart1] from rfl] at heq
  injection heq with hl
  exact List.cons_ne_nil _ _ hl

/-- Claim C6 (amended): for a nonempty filter value the cart listing
returns exactly the carts whose `customer_name` equals the value
(case-sensitive, no partial match); with the argument absent — or present
but empty, which Flask truthiness treats as absent — it returns all
carts. -/
theorem c6_list_filter_by_customer_name :
    (∀ (db : DB) (n : String), n ≠ "" →
       (ShopcartCollection.get db (some n)).status = 200
       ∧ (ShopcartCollection.get db (some n)).body
           = .jarr ((Shopcart.find_by_customer_name db n).map (Shopcart.serialize db))
       ∧ ∀ c : ShopcartRec, c ∈ Shopcart.find_by_customer_name db n
           ↔ c ∈ db.shopcarts ∧ c.customer_name = .jstr n)
    ∧ (∀ db : DB, ShopcartCollection.get db none
         = { status := 200, body := .jarr (db.shopcarts.map (Shopcart.serialize db)) })
    ∧ (∀ db : DB, ShopcartCollection.get db (some "")
         = { status := 200, body := .jarr (db.shopcarts.map (Shopcart.serialize db)) }) := by
  refine ⟨?_, fun db => rfl, fun db => rfl⟩
  intro db n hn
  have hb : (n == "") = false := beq_eq_false_iff_ne.mpr hn
  refine ⟨by simp [ShopcartCollection.get, hb], by simp [ShopcartCollection.get, hb], ?_⟩
  intro c
  simp [Shopcart.find_by_customer_name, List.mem_filter, JVal.eqStr_iff]

/-- Witness for C6's amended theorem at the sample database. -/
theorem c6_witness :
    (ShopcartCollection.get sampleDb (some "Alice")).status = 200
    ∧ (ShopcartCollection.get sampleDb (some "Alice")).body
        = .jarr ((Shopcart.find_by_customer_name sampleDb "Alice").map
            (Shopcart.serialize sampleDb))
    ∧ (cart1 ∈ Shopcart.find_by_customer_name sampleDb "Alice"
        ↔ cart1 ∈ sampleDb.shopcarts ∧ cart1.customer_name = .jstr "Alice") := by
  have h := c6_list_filter_by_customer_name.1 sampleDb "Alice" (by decide)
  exact ⟨h.1, h.2.1, h.2.2 cart1⟩

/-- Claim C7 counterexample: on the existing cart 1, the query `name=` with
an empty value returns the "shirt" item even though no item's name equals
`""` — so the route does not return "exactly the items whose name equals N"
for every N. -/
theorem c7_counterexample :
    Shopcart.find sampleDb 1 = some cart1
    ∧ item7.shopcart_id = .jnum 1
    ∧ item7.name = .jstr "shirt"
    ∧ Item.find_by_name_within_shopcart sampleDb 1 "" = []
    ∧ (ItemCollection.get sampleDb 1 (some "")).body
        = .jarr [.jobj (Item.serialize item7)]
    ∧ (ItemCollection.get sampleDb 1 (some "")).body ≠ .jarr [] := by
  refine ⟨rfl, rfl, rfl, rfl, rfl, ?_⟩
  intro heq
  rw [show (ItemCollection.get sampleDb 1 (some "")).body
      = .jarr [.jobj (Item.serialize item7)] from rfl] at heq
  injection heq with hl
  exact List.cons_ne_nil _ _ hl

/-- Claim C7 (amended): for an existing cart and a nonempty filter value
the item listing returns exactly the items of that cart whose name equals
the value (never items of other carts); with the argument absent or empty
it returns all items of that cart; a missing cart answers 404. -/
theorem c7_item_list_scoped_filter :
    (∀ (db : DB) (cid : Nat) (n : String) (c : ShopcartRec),
       Shopcart.find db cid = some c → n ≠ "" →
       (ItemCollection.get db cid (some n)).status = 200
       ∧ (ItemCollection.get db cid (some n)).body
           = .jarr ((Item.find_by_name_within_shopcart db cid n).map
               fun it => .jobj (Item.serialize it))
       ∧ ∀ it : ItemRec, it ∈ Item.find_by_name_within_shopcart db cid n
           ↔ it ∈ db.items ∧ it.shopcart_id = .jnum cid ∧ it.name = .jstr n)
    ∧ (∀ (db : DB) (cid : Nat) (c : ShopcartRec), Shopcart.find db cid = some c →
       (ItemCollection.get db cid none).status = 200
       ∧ (ItemCollection.get db cid none).body
           = .jarr ((db.itemsOf cid).map fun it => .jobj (Item.serialize it))
       ∧ ∀ it : ItemRec, it ∈ db.itemsOf cid
           ↔ it ∈ db.items ∧ it.shopcart_id = .jnum cid)
    ∧ (∀ (db : DB) (cid : Nat) (nm : Option String), Shopcart.find db cid = none →
       (ItemCollection.get db cid nm).status = 404) := by
  refine ⟨?_, ?_, ?_⟩
  · intro db cid n c h hn
    have hb : (n == "") = false := beq_eq_false_iff_ne.mpr hn
    refine ⟨by simp [ItemCollection.get, h, hb], by simp [ItemCollection.get, h, hb], ?_⟩
    intro it
    simp [Item.find_by_name_within_shopcart, List.mem_filter, JVal.eqNat_iff,
      JVal.eqStr_iff, and_assoc]
  · intro db cid c h
    refine ⟨by simp [ItemCollection.get, h], by simp [ItemCollection.get, h], ?_⟩
    intro it
    simp [DB.itemsOf, List.mem_filter, JVal.eqNat_iff]
  · intro db cid nm h
    cases nm <;> simp [ItemCollection.get, h]

/-- Witness for C7's amended theorem at the sample database. -/
theorem c7_witness :
    (ItemCollection.get sampleDb 1 (some "shirt")).status = 200
    ∧ (ItemCollection.get sampleDb 1 (some "shirt")).body
        = .jarr ((Item.find_by_name_within_shopcart sampleDb 1 "shirt").map
            fun it => .jobj (Item.serialize it))
    ∧ (item7 ∈ Item.find_by_name_within_shopcart sampleDb 1 "shirt"
        ↔ item7 ∈ sampleDb.items ∧ item7.shopcart_id = .jnum 1
          ∧ item7.name = .jstr "shirt")
    ∧ (ItemCollection.get sampleDb 99 (some "shirt")).status = 404 := by
  have h := c7_item_list_scoped_filter.1 sampleDb 1 "shirt" cart1 rfl (by decide)
  have h4 := c7_item_list_scoped_filter.2.2 sampleDb 99 (some "shirt") rfl
  exact ⟨h.1, h.2.1, h.2.2 item7, h4⟩

/-- Claim C10: the single-item routes resolve the target by `item_id`
alone: their results are independent of the shopcart path segment, and for
any existing item — whatever cart id stands in the path — GET answers 200
with that item, PUT replaces its payload fields and answers 200, DELETE
removes it and answers 204. -/
theorem c10_item_routes_ignore_cart_segment :
    (∀ (db : DB) (x y iid : Nat), ItemResource.get db x iid = ItemResource.get db y iid)
    ∧ (∀ (db : DB) (x y iid : Nat) (p : JVal),
        ItemResource.put db x iid p = ItemResource.put db y iid p)
    ∧ (∀ (db : DB) (x y iid : Nat),
        ItemResource.delete db x iid = ItemResource.delete db y iid)
    ∧ (∀ (db : DB) (x iid : Nat) (r : ItemRec), Item.find db iid = some r →
        ItemResource.get db x iid = { status := 200, body := .jobj (Item.serialize r) })
    ∧ (∀ (db : DB) (x iid : Nat) (p : JVal) (r : ItemRec) (e : ItemEnt),
        Item.find db iid = some r → Item.deserialize p = .ok e →
        (ItemResource.put db x iid p).1.status = 200
        ∧ (ItemResource.put db x iid p).1.body = .jobj (Item.serialize
            { id := iid, shopcart_id := e.shopcart_id, name := e.name,
              description := e.description, price := e.price, quantity := e.quantity,
              created_at := r.created_at, last_updated := db.clock })
        ∧ Item.find (ItemResource.put db x iid p).2 iid = some
            { id := iid, shopcart_id := e.shopcart_id, name := e.name,
              description := e.description, price := e.price, quantity := e.quantity,
              created_at := r.created_at, last_updated := db.clock })
    ∧ (∀ (db : DB) (x iid : Nat) (r : ItemRec), Item.find db iid = some r →
        (ItemResource.delete db x iid).1.status = 204
        ∧ Item.find (ItemResource.delete db x iid).2 iid = none) := by
  refine ⟨fun db x y iid => rfl, fun db x y iid p => rfl, fun db x y iid => rfl,
    ?_, ?_, ?_⟩
  · intro db x iid r h
    simp [ItemResource.get, h]
  · intro db x iid p r e h he
    refine ⟨by simp [ItemResource.put, h, he], by simp [ItemResource.put, h, he], ?_⟩
    simp only [ItemResource.put, h, he]
    simp only [Item.find]
    exact item_find?_map_set db.items iid _ r h rfl
  · intro db x iid r h
    refine ⟨by simp [ItemResource.delete, h], ?_⟩
    simp only [ItemResource.delete, h]
    simp only [Item.find]
    exact find?_filter_not _ _

/-- Witness for C10 at the sample database, addressing item 7 of cart 1
through the unrelated cart id 99. -/
theorem c10_witness :
    ItemResource.get sampleDb 99 7
      = { status := 200, body := .jobj (Item.serialize item7) }
    ∧ (ItemResource.put sampleDb 99 7 itemPayload).1.status = 200
    ∧ (ItemResource.delete sampleDb 99 7).1.status = 204
    ∧ Item.find (ItemResource.delete sampleDb 99 7).2 7 = none := by
  have hg := c10_item_routes_ignore_cart_segment.2.2.2.1 sampleDb 99 7 item7 rfl
  have hp := c10_item_routes_ignore_cart_segment.2.2.2.2.1 sampleDb 99 7 itemPayload
    item7 { shopcart_id := .jnull, name := .jstr "shirt", description := .jstr "d",
            price := .jnum 5, quantity := .jnum 2 } rfl rfl
  have hd := c10_item_routes_ignore_cart_segment.2.2.2.2.2 sampleDb 99 7 item7 rfl
  exact ⟨hg, hp.1, hd.1, hd.2⟩


/-- Claim C8 counterexample: a JSON body that contains `customer_name` but
also a nonempty `items` list is accepted with 201, and the response body's
`items` is the one-element array of the created item — not `[]` as the
claim requires for every body containing `customer_name`. -/
theorem c8_counterexample :
    fieldOf c8payload "customer_name" = some (.jstr "Bob")
    ∧ (ShopcartCollection.post emptyDb c8payload).1.status = 201
    ∧ fieldOf (ShopcartCollection.post emptyDb c8payload).1.body "items"
        = some (.jarr [.jobj (Item.serialize c8row)])
    ∧ fieldOf (ShopcartCollection.post emptyDb c8payload).1.body "items"
        ≠ some (.jarr []) := by
  refine ⟨rfl, rfl, rfl, ?_⟩
  intro heq
  rw [show fieldOf (ShopcartCollection.post emptyDb c8payload).1.body "items"
      = some (.jarr [.jobj (Item.serialize c8row)]) from rfl] at heq
  injection heq with h1
  injection h1 with h2
  exact List.cons_ne_nil _ _ h2

/-- Claim C8 (amended): POST `/shopcarts` with a JSON body containing
`customer_name` and no (or a null or empty) `items` entry creates a cart
with an empty item list: 201 with the fresh server-assigned id, the given
`customer_name` and `items: []`, plus a `Location` header for the new cart
from which GET answers 200 with the matching `customer_name`. -/
theorem c8_create_with_customer_name :
    ∀ (db : DB) (fields : List (String × JVal)) (v : JVal),
      JVal.lookupField fields "customer_name" = some v →
      (JVal.lookupField fields "items" = none
        ∨ JVal.lookupField fields "items" = some .jnull
        ∨ JVal.lookupField fields "items" = some (.jarr [])) →
      Shopcart.find db db.nextShopcartId = none →
      db.itemsOf db.nextShopcartId = [] →
      (ShopcartCollection.post db (.jobj fields)).1.status = 201
      ∧ fieldOf (ShopcartCollection.post db (.jobj fields)).1.body "id"
          = some (.jnum db.nextShopcartId)
      ∧ fieldOf (ShopcartCollection.post db (.jobj fields)).1.body "customer_name"
          = some v
      ∧ fieldOf (ShopcartCollection.post db (.jobj fields)).1.body "items"
          = some (.jarr [])
      ∧ (ShopcartCollection.post db (.jobj fields)).2.1
          = some ("/api/shopcarts/" ++ toString db.nextShopcartId)
      ∧ (ShopcartResource.get (ShopcartCollection.post db (.jobj fields)).2.2
          db.nextShopcartId).status = 200
      ∧ fieldOf (ShopcartResource.get (ShopcartCollection.post db (.jobj fields)).2.2
          db.nextShopcartId).body "customer_name" = some v := by
  intro db fields v hv hitems hfree hifree
  have hdes : Shopcart.deserialize ShopcartEnt.fresh (.jobj fields)
      = .ok { id := none, customer_name := v, items := [] } := by
    rcases hitems with hi | hi | hi <;>
      simp [Shopcart.deserialize, hv, hi, ShopcartEnt.fresh, pyIter,
        Shopcart.deserializeItems]
  have hitems2 : (createShopcart db ⟨none, v, []⟩).2.itemsOf db.nextShopcartId = [] := by
    simp only [createShopcart, insertItemEnts, DB.itemsOf]
    rw [List.append_nil]
    exact hifree
  have hfind2 : Shopcart.find (createShopcart db ⟨none, v, []⟩).2 db.nextShopcartId
      = some ⟨db.nextShopcartId, v, db.clock, db.clock⟩ := by
    simp only [createShopcart, Shopcart.find]
    rw [List.find?_append]
    rw [show List.find? (fun c => c.id == db.nextShopcartId) db.shopcarts = none
        from hfree]
    simp
  refine ⟨?_, ?_, ?_, ?_, ?_, ?_, ?_⟩
  · simp [ShopcartCollection.post, hdes]
  · simp only [ShopcartCollection.post, hdes]
    rfl
  · simp only [ShopcartCollection.post, hdes]
    rfl
  · simp only [ShopcartCollection.post, hdes]
    show some (JVal.jarr (((createShopcart db ⟨none, v, []⟩).2.itemsOf
        (createShopcart db ⟨none, v, []⟩).1.id).map
        fun it => JVal.jobj (Item.serialize it))) = some (JVal.jarr [])
    rw [show (createShopcart db ⟨none, v, []⟩).1.id = db.nextShopcartId from rfl,
      hitems2]
    rfl
  · simp only [ShopcartCollection.post, hdes]
    rfl
  · simp only [ShopcartCollection.post, hdes]
    simp [ShopcartResource.get, hfind2]
  · simp only [ShopcartCollection.post, hdes]
    simp only [ShopcartResource.get, hfind2]
    rfl

/-- Witness for C8's amended theorem: creating cart "Bob" in the empty
database. -/
theorem c8_witness :
    (ShopcartCollection.post emptyDb (.jobj [("customer_name", .jstr "Bob")])).1.status
      = 201
    ∧ fieldOf (ShopcartCollection.post emptyDb
        (.jobj [("customer_name", .jstr "Bob")])).1.body "items" = some (.jarr [])
    ∧ (ShopcartCollection.post emptyDb (.jobj [("customer_name", .jstr "Bob")])).2.1
        = some ("/api/shopcarts/" ++ toString emptyDb.nextShopcartId)
    ∧ fieldOf (ShopcartResource.get
        (ShopcartCollection.post emptyDb
          (.jobj [("customer_name", .jstr "Bob")])).2.2
        emptyDb.nextShopcartId).body "customer_name" = some (.jstr "Bob") := by
  have h := c8_create_with_customer_name emptyDb [("customer_name", .jstr "Bob")]
    (.jstr "Bob") rfl (Or.inl rfl) rfl rfl
  exact ⟨h.1, h.2.2.2.1, h.2.2.2.2.1, h.2.2.2.2.2.2⟩

/-- Claim C9: persisting a valid deserialized cart payload assigns the
server-side id and timestamp columns (from the key sequence and the clock,
never from the payload), serializes them as non-null JSON values, and
deserializing the serialized cart reproduces `customer_name` and the item
contents unchanged. -/
theorem c9_create_serialize_roundtrip :
    ∀ (db : DB) (payload : JVal) (ent : ShopcartEnt),
      Shopcart.deserialize ShopcartEnt.fresh payload = .ok ent →
      db.itemsOf db.nextShopcartId = [] →
      (createShopcart db ent).1.id = db.nextShopcartId
      ∧ (createShopcart db ent).1.created_at = db.clock
      ∧ (createShopcart db ent).1.last_updated = db.clock
      ∧ fieldOf (Shopcart.serialize (createShopcart db ent).2 (createShopcart db ent).1)
          "id" = some (.jnum db.nextShopcartId)
      ∧ fieldOf (Shopcart.serialize (createShopcart db ent).2 (createShopcart db ent).1)
          "created_at" = some (.jstr (isoformat db.clock))
      ∧ fieldOf (Shopcart.serialize (createShopcart db ent).2 (createShopcart db ent).1)
          "last_updated" = some (.jstr (isoformat db.clock))
      ∧ ∃ ent2 : ShopcartEnt,
          Shopcart.deserialize ShopcartEnt.fresh
            (Shopcart.serialize (createShopcart db ent).2 (createShopcart db ent).1)
            = .ok ent2
          ∧ ent2.customer_name = ent.customer_name
          ∧ ent2.items.map itemContent = ent.items.map itemContent := by
  intro db payload ent hde hifree
  have hitemsOf : (createShopcart db ent).2.itemsOf (createShopcart db ent).1.id
      = insertItemEnts db.nextShopcartId db.nextItemId db.clock ent.items := by
    simp only [createShopcart, DB.itemsOf]
    rw [List.filter_append, insertItemEnts_filter_eqNat]
    rw [show db.items.filter (fun it => it.shopcart_id.eqNat db.nextShopcartId) = []
        from hifree]
    simp
  have hbody : Shopcart.serialize (createShopcart db ent).2 (createShopcart db ent).1
      = .jobj [("id", .jnum (db.nextShopcartId : Int)),
               ("customer_name", ent.customer_name),
               ("items", .jarr ((insertItemEnts db.nextShopcartId db.nextItemId db.clock
                   ent.items).map fun it => .jobj (Item.serialize it))),
               ("created_at", .jstr (isoformat db.clock)),
               ("last_updated", .jstr (isoformat db.clock))] := by
    simp only [Shopcart.serialize, hitemsOf]
    rfl
  refine ⟨rfl, rfl, rfl, rfl, rfl, rfl, ?_⟩
  refine ⟨⟨none, ent.customer_name,
    (insertItemEnts db.nextShopcartId db.nextItemId db.clock ent.items).map
      fun it => (⟨.jnull, it.name, it.description, it.price, it.quantity⟩ : ItemEnt)⟩,
    ?_, rfl, ?_⟩
  · rw [hbody]
    have hd := deserializeItems_of_serialized JVal.jnull
      (insertItemEnts db.nextShopcartId db.nextItemId db.clock ent.items)
    simp [Shopcart.deserialize, JVal.lookupField, List.lookup, pyIter,
      ShopcartEnt.fresh, jidOf, hd]
  · show ((insertItemEnts db.nextShopcartId db.nextItemId db.clock ent.items).map
        (fun it => (⟨.jnull, it.name, it.description, it.price,
          it.quantity⟩ : ItemEnt))).map itemContent
      = ent.items.map itemContent
    simp only [List.map_map, Function.comp, itemContent]
    exact insertItemEnts_content _ _ _ _

/-- Witness for C9: creating the "Bob" cart with one "shirt" item in the
empty database. -/
theorem c9_witness :
    (createShopcart emptyDb
      ⟨none, .jstr "Bob", [⟨.jnull, .jstr "shirt", .jstr "d", .jnum 5, .jnum 2⟩]⟩).1.id
      = emptyDb.nextShopcartId
    ∧ fieldOf (Shopcart.serialize
        (createShopcart emptyDb
          ⟨none, .jstr "Bob",
            [⟨.jnull, .jstr "shirt", .jstr "d", .jnum 5, .jnum 2⟩]⟩).2
        (createShopcart emptyDb
          ⟨none, .jstr "Bob",
            [⟨.jnull, .jstr "shirt", .jstr "d", .jnum 5, .jnum 2⟩]⟩).1) "id"
      = some (.jnum emptyDb.nextShopcartId)
    ∧ fieldOf (Shopcart.serialize
        (createShopcart emptyDb
          ⟨none, .jstr "Bob",
            [⟨.jnull, .jstr "shirt", .jstr "d", .jnum 5, .jnum 2⟩]⟩).2
        (createShopcart emptyDb
          ⟨none, .jstr "Bob",
            [⟨.jnull, .jstr "shirt", .jstr "d", .jnum 5, .jnum 2⟩]⟩).1) "created_at"
      = some (.jstr (isoformat emptyDb.clock)) := by
  have h := c9_create_serialize_roundtrip emptyDb c8payload
    ⟨none, .jstr "Bob", [⟨.jnull, .jstr "shirt", .jstr "d", .jnum 5, .jnum 2⟩]⟩
    rfl rfl
  exact ⟨h.1, h.2.2.2.1, h.2.2.2.2.1⟩
